import Mathlib

/-!
Shallow embedding of the Semantic Search Q&A system
(src/semantic_qa_system) and proofs about its claims.

Source files modelled here:
  services/search_service.py      (SearchService: index build, semantic_search,
                                   exact_search, get_document)
  services/application_service.py (ApplicationService: construction,
                                   search_and_answer)
  services/qa_service.py          (QAService: _build_prompt, generate_answer)
  services/embedding_service.py   (EmbeddingService.get_single_embedding)
  utils/helpers.py                (encode_text_to_embedding_batched)

Modelling conventions:
  * Python floats are modelled by an arbitrary linear ordered field `R`;
    every claim theorem instantiates `R := ℝ`.  `np.linalg.norm`'s square
    root is passed as an explicit `sqrt : R → R` argument, fixed to
    `Real.sqrt` in every claim theorem.
  * Fallible calls (the external embedding and generation providers, and
    code paths that raise) are modelled with `Except String`; the message
    wrapping mirrors the `raise Exception(f"...: {str(e)}")` chains of the
    source.
  * The two external ML providers (Vertex AI) are function parameters
    (`embed1`, `generate`, `batchEmbed`): the source treats them as black
    boxes behind `model.get_embeddings` / `model.predict`.
  * `np.argsort` (default, unstable introsort: ties in an order numpy does
    not specify) and the intra-partition order of `np.argpartition` are
    modelled by the deterministic refinement "sort by (score, index)
    lexicographically" — the order numpy's stable argsort produces and the
    one observed from the default kind on the concrete inputs used below.
  * Wall-clock time: `search_and_answer` takes `t_start` (the `time.time()`
    reading of line 39) and `t_end` (the reading at whichever `return`
    executes).
-/

variable {R : Type} [LinearOrderedField R]

/-- One row of the loaded CSV dataset (`data/so_database_app.csv`): columns
`input_text`, `output_text`, `embeddings` (the CSV's own embeddings column,
distinct from the separately unpickled embedding array). -/
structure DBRow (R : Type) where
  input_text : String
  output_text : String
  embeddings : List R
deriving Repr

/-- The dict built by `SearchService.get_document` (search_service.py lines
86-91). -/
structure Document (R : Type) where
  id : ℤ
  question : String
  answer : String
  embeddings : List R
deriving Repr

/-- The `source_document` dict of the success envelope
(application_service.py lines 70-75). -/
structure SourceDocument (R : Type) where
  id : ℤ
  question : String
  answer : String
  similarity_score : R
deriving Repr

/-- The response dict of `ApplicationService.search_and_answer`.  A Python
dict key that a branch does not set is modelled as `none`. -/
structure QueryOutcome (R : Type) where
  success : Bool
  query : Option String
  answer : Option String
  source_document : Option (SourceDocument R)
  search_method : Option String
  error : Option String
  latency_ms : R

/-- `np.dot` of two equal-length vectors (mismatched lengths never arise on
the paths proved below; `zipWith` truncates where numpy would broadcast or
raise). -/
def dot (xs ys : List R) : R :=
  (List.zipWith (fun a b => a * b) xs ys).sum

/-- `v / np.linalg.norm(v)` (search_service.py lines 22-24 and 49).  In this
exact-field model division by a zero norm yields the zero vector where numpy
would produce NaNs; no claim below rests on that case of this function. -/
def np_normalize (sqrt : R → R) (v : List R) : List R :=
  v.map (fun x => x / sqrt (dot v v))

/-- The row normalization inside `sklearn.metrics.pairwise.cosine_similarity`:
sklearn's `normalize` leaves a row whose norm is zero unchanged (it replaces
zero norms by 1 before dividing). -/
def sklearn_normalize (sqrt : R → R) (v : List R) : List R :=
  let n := sqrt (dot v v)
  if n = 0 then v else v.map (fun x => x / n)

/-- One entry of `cosine_similarity([query_embedding], self.embeddings)[0]`
(search_service.py lines 66-69): the dot product of the sklearn-normalized
vectors. -/
def cosineSimilarity (sqrt : R → R) (q v : List R) : R :=
  dot (sklearn_normalize sqrt q) (sklearn_normalize sqrt v)

/-- `scores[i]` for an index produced by argsort (always in range on the
paths below; out of range defaults to 0). -/
def scoreAt (s : List R) (i : ℕ) : R :=
  s.getD i 0

/-- The order in which a stable ascending argsort of `scores` lists positions
`i` and `j`: by score, ties by original position. -/
def idxLe (s : List R) (i j : ℕ) : Prop :=
  scoreAt s i < scoreAt s j ∨ (scoreAt s i = scoreAt s j ∧ i ≤ j)

instance idxLe.decidableRel (s : List R) : DecidableRel (idxLe s) := fun _ _ =>
  inferInstanceAs (Decidable (_ ∨ _))

instance idxLe.isTotal (s : List R) : IsTotal ℕ (idxLe s) where
  total i j := by
    rcases lt_trichotomy (scoreAt s i) (scoreAt s j) with h | h | h
    · exact Or.inl (Or.inl h)
    · rcases Nat.le_total i j with hij | hij
      · exact Or.inl (Or.inr ⟨h, hij⟩)
      · exact Or.inr (Or.inr ⟨h.symm, hij⟩)
    · exact Or.inr (Or.inl h)

instance idxLe.isTrans (s : List R) : IsTrans ℕ (idxLe s) where
  trans i j k hij hjk := by
    rcases hij with h1 | ⟨h1, h1'⟩ <;> rcases hjk with h2 | ⟨h2, h2'⟩
    · exact Or.inl (h1.trans h2)
    · exact Or.inl (h2 ▸ h1)
    · exact Or.inl (h1 ▸ h2)
    · exact Or.inr ⟨h1.trans h2, h1'.trans h2'⟩

/-- `np.argsort(scores)`, modelled as the permutation of `0 .. len-1` sorted
by `(score, index)` lexicographically (see the header note on tie order). -/
def np_argsort (s : List R) : List ℕ :=
  List.insertionSort (idxLe s) (List.range s.length)

/-- `np.argsort` applied to `scores[idxs]` and composed back onto `idxs`
(search_service.py line 73 before the final `[::-1]`), under the same
deterministic tie refinement. -/
def np_argsort_on (s : List R) (idxs : List ℕ) : List ℕ :=
  List.insertionSort (idxLe s) idxs

/-- The Python slice `a[-k:]` for a natural `k`: the last `k` elements, the
whole list when `k = 0` (since `a[-0:]` is `a[0:]`). -/
def lastSlice (l : List α) (k : ℕ) : List α :=
  if k = 0 then l else l.drop (l.length - k)

/-- Whether `np.argpartition(a, -k)` accepts position `-k` for an array of
length `n`: it raises `ValueError: kth out of bounds` unless
`-n <= -k < n`. -/
def argpartition_ok (n k : ℕ) : Bool :=
  if k = 0 then decide (0 < n) else decide (k ≤ n)

/-- Lines 72-73 of search_service.py:
`top_k_indices = np.argpartition(cos_sim_array, -k)[-k:]` followed by
`top_k_indices[np.argsort(cos_sim_array[top_k_indices])][::-1]`.
`argpartition`'s intra-partition order is unspecified; it is modelled by the
fully sorted refinement, whose last `k` entries are a valid top-`k`
partition. -/
def exact_topk (s : List R) (k : ℕ) : List ℕ :=
  (np_argsort_on s (lastSlice (np_argsort s) k)).reverse

/-- `EmbeddingService.get_single_embedding` (embedding_service.py lines
14-33): one call to the external provider (`embed1`), failures re-raised as
`Failed to get embeddings: ...`. -/
def get_single_embedding (embed1 : String → Except String (List R))
    (text : String) : Except String (List R) :=
  match embed1 text with
  | .ok v => .ok v
  | .error e => .error ("Failed to get embeddings: " ++ e)

/-- `SearchService._build_index` (search_service.py lines 18-41) normalizes
the embedding rows to unit length and hands them to the ScaNN builder.
Modelled from the spec: the built index is a black-box structure over the
normalized vectors; we keep exactly those vectors. -/
def build_index (sqrt : R → R) (embeddings : List (List R)) : List (List R) :=
  embeddings.map (np_normalize sqrt)

/-- `SearchService` state: the dataframe, the unpickled embedding array and
the built index (search_service.py lines 13-16). -/
structure SearchService (R : Type) where
  database : List (DBRow R)
  embeddings : List (List R)
  index : List (List R)

/-- `SearchService.__init__`: stores both sides unchanged and builds the
index; it performs no validation of any kind. -/
def SearchService.build (sqrt : R → R) (database : List (DBRow R))
    (embeddings : List (List R)) : SearchService R :=
  ⟨database, embeddings, build_index sqrt embeddings⟩

/-- Modelled from the spec: `index.search(normalized_query,
final_num_neighbors=k)` of the external ScaNN library (search_service.py
lines 51-54).  Spec contract (section 4.2): dot-product scores over the
index's unit-normalized vectors, results ordered by descending score, at
most `k` of them, and all of them when the corpus has fewer than `k`
vectors. -/
def scann_index_search (index : List (List R)) (q : List R) (k : ℕ) :
    List ℕ × List R :=
  let scores := index.map (fun v => dot q v)
  let ids := (np_argsort scores).reverse.take k
  (ids, ids.map (scoreAt scores))

/-- `SearchService.semantic_search` (search_service.py lines 43-58): embed
the query, normalize it, probe the ScaNN index; any exception is re-raised
as `Semantic search failed: ...`. -/
def SearchService.semantic_search (sqrt : R → R)
    (embed1 : String → Except String (List R)) (s : SearchService R)
    (query : String) (k : ℕ) : Except String (List ℕ × List R) :=
  match get_single_embedding embed1 query with
  | .error e => .error ("Semantic search failed: " ++ e)
  | .ok query_embedding =>
    .ok (scann_index_search s.index (np_normalize sqrt query_embedding) k)

/-- `SearchService.exact_search` (search_service.py lines 60-79): embed the
query, compute the cosine-similarity row against `self.embeddings`, select
the top `k` via `argpartition`/`argsort`/`[::-1]`; any exception — including
`np.argpartition`'s `ValueError` when `k` exceeds the corpus size — is
re-raised as `Exact search failed: ...`. -/
def SearchService.exact_search (sqrt : R → R)
    (embed1 : String → Except String (List R)) (s : SearchService R)
    (query : String) (k : ℕ) : Except String (List ℕ × List R) :=
  match get_single_embedding embed1 query with
  | .error e => .error ("Exact search failed: " ++ e)
  | .ok query_embedding =>
    let cos_sim_array := s.embeddings.map (cosineSimilarity sqrt query_embedding)
    if argpartition_ok s.embeddings.length k then
      let ids := exact_topk cos_sim_array k
      .ok (ids, ids.map (scoreAt cos_sim_array))
    else
      .error ("Exact search failed: kth out of bounds")

/-- `SearchService.get_document` (search_service.py lines 81-94): for
`0 <= doc_id < len(self.database)` the dict built from the dataframe row
(note: its embeddings come from the row's own `embeddings` column), else
`None`. -/
def SearchService.get_document (s : SearchService R) (doc_id : ℤ) :
    Option (Document R) :=
  if 0 ≤ doc_id ∧ doc_id < s.database.length then
    (s.database.get? doc_id.toNat).map
      (fun row => ⟨doc_id, row.input_text, row.output_text, row.embeddings⟩)
  else
    none

/-- `QAService._build_prompt` (qa_service.py lines 27-36), character for
character. -/
def build_prompt (query context : String) : String :=
  "Here is the context: " ++ context ++
  "\n\nUsing the relevant information from the context, provide an answer to the query: \"" ++
  query ++
  "\".\n\nIf the context doesn't provide any relevant information, answer with:\n[I couldn't find a good match in the document database for your query]\n\nAnswer:"

/-- `QAService.generate_answer` (qa_service.py lines 12-25): build the
prompt, call the external generation provider (`generate` stands for
`model.predict(prompt, temperature, max_output_tokens)` with the settings
constants baked in), strip the response, re-raise failures as
`Failed to generate answer: ...`.  Python's `str.strip()` is modelled by
`String.trim`. -/
def generate_answer (generate : String → Except String String)
    (query context : String) : Except String String :=
  match generate (build_prompt query context) with
  | .ok text => .ok text.trim
  | .error e => .error ("Failed to generate answer: " ++ e)

/-- A failure return of `search_and_answer` (application_service.py lines
53-58 and 80-85): only `success`, `error` and `latency_ms` are set. -/
def failure_envelope (err : String) (latency : R) : QueryOutcome R :=
  { success := false
    query := none
    answer := none
    source_document := none
    search_method := none
    error := some err
    latency_ms := latency }

/-- The success return of `search_and_answer` (application_service.py lines
66-78). -/
def success_envelope (query answer : String) (doc : Document R)
    (best_similarity : R) (use_approximate : Bool) (latency : R) :
    QueryOutcome R :=
  { success := true
    query := some query
    answer := some answer
    source_document := some ⟨doc.id, doc.question, doc.answer, best_similarity⟩
    search_method := some (if use_approximate then "approximate" else "exact")
    error := none
    latency_ms := latency }

/-- `ApplicationService.search_and_answer` (application_service.py lines
37-85).  `t_start` is the `time.time()` of line 39 and `t_end` the reading
at the executed `return`; every branch reports
`(t_end - t_start) * 1000` as `latency_ms`.  The `doc_ids[0]` /
`similarities[0]` reads on an empty result list raise `IndexError: list
index out of range`, which the enclosing `except` turns into a failure
envelope. -/
def search_and_answer (sqrt : R → R)
    (embed1 : String → Except String (List R))
    (generate : String → Except String String) (s : SearchService R)
    (t_start t_end : R) (query : String) (use_approximate : Bool) (k : ℕ) :
    QueryOutcome R :=
  let latency := (t_end - t_start) * 1000
  match (if use_approximate then
           s.semantic_search sqrt embed1 query k
         else
           s.exact_search sqrt embed1 query k) with
  | .error e => failure_envelope e latency
  | .ok (doc_ids, similarities) =>
    match doc_ids.head?, similarities.head? with
    | none, _ => failure_envelope "list index out of range" latency
    | some _, none => failure_envelope "list index out of range" latency
    | some best_doc_id, some best_similarity =>
      match s.get_document (best_doc_id : ℤ) with
      | none => failure_envelope "No relevant document found" latency
      | some document =>
        let context := "Question: " ++ document.question ++ "\nAnswer: " ++
          document.answer
        match generate_answer generate query context with
        | .error e => failure_envelope e latency
        | .ok answer =>
          success_envelope query answer document best_similarity
            use_approximate latency

/-- `ApplicationService` state after `__init__` (application_service.py
lines 14-18), with the two loads from durable storage replaced by their
results. -/
structure ApplicationService (R : Type) where
  database : List (DBRow R)
  embeddings : List (List R)
  search_service : SearchService R

/-- `ApplicationService.__init__` on already-loaded data: store both sides
and construct the `SearchService`; no row-count validation exists anywhere
on this path. -/
def ApplicationService.build (sqrt : R → R) (database : List (DBRow R))
    (embeddings : List (List R)) : ApplicationService R :=
  ⟨database, embeddings, SearchService.build sqrt database embeddings⟩

/-- The batches `sentences[i:i+batch_size]` for `i in range(0, len, bs+1)`
(helpers.py line 17). -/
def chunksGo (bs : ℕ) : List String → List (List String)
  | [] => []
  | x :: xs => ((x :: xs).take (bs + 1)) :: chunksGo bs ((x :: xs).drop (bs + 1))
termination_by l => l.length
decreasing_by simp_arith [List.drop]

/-- The loop body of `encode_text_to_embedding_batched` (helpers.py lines
17-35) for batch size `bs + 1`.  Returns the collected embeddings and the
total time slept by the rate limiter.  A successful batch appends the
provider's vectors and, when sentences remain, sleeps `delay`; a failed
batch appends one 768-dimensional zero vector per sentence of the batch and
does not sleep (the exception skips line 29). -/
def encodeGo (batchEmbed : List String → Except String (List (List R)))
    (delay : R) (bs : ℕ) : List String → List (List R) × R
  | [] => ([], 0)
  | x :: xs =>
    let batch := (x :: xs).take (bs + 1)
    let remaining := (x :: xs).drop (bs + 1)
    let tail := encodeGo batchEmbed delay bs remaining
    match batchEmbed batch with
    | .ok batch_embeddings =>
      (batch_embeddings ++ tail.1,
       (if remaining.length ≠ 0 then delay else 0) + tail.2)
    | .error _ =>
      (batch.map (fun _ => List.replicate 768 (0 : R)) ++ tail.1, tail.2)
termination_by l => l.length
decreasing_by simp_arith [List.drop]

/-- `encode_text_to_embedding_batched` (helpers.py lines 8-37):
`delay = 1 / api_calls_per_second`; a batch size of zero makes Python's
`range(0, n, 0)` raise `ValueError` before any work. -/
def encode_text_to_embedding_batched
    (batchEmbed : List String → Except String (List (List R)))
    (sentences : List String) (api_calls_per_second : R) (batch_size : ℕ) :
    Except String (List (List R) × R) :=
  let delay := 1 / api_calls_per_second
  match batch_size with
  | 0 => .error "range() arg 3 must not be zero"
  | bs + 1 => .ok (encodeGo batchEmbed delay bs sentences)

/-- What one batch contributes to the output of
`encode_text_to_embedding_batched`: the provider's vectors on success, one
768-dimensional zero vector per sentence on failure (helpers.py lines
24-25 and 33-35). -/
def batchBlock (batchEmbed : List String → Except String (List (List R)))
    (batch : List String) : List (List R) :=
  match batchEmbed batch with
  | .ok vs => vs
  | .error _ => batch.map (fun _ => List.replicate 768 (0 : R))

/-! ## Lemmas about the top-k selection pipeline -/

theorem np_argsort_perm (s : List R) : (np_argsort s).Perm (List.range s.length) :=
  List.perm_insertionSort _ _

theorem np_argsort_sorted (s : List R) : List.Sorted (idxLe s) (np_argsort s) :=
  List.sorted_insertionSort _ _

theorem np_argsort_length (s : List R) : (np_argsort s).length = s.length := by
  simpa using (np_argsort_perm s).length_eq

theorem mem_np_argsort (s : List R) {i : ℕ} : i ∈ np_argsort s ↔ i < s.length := by
  rw [(np_argsort_perm s).mem_iff, List.mem_range]

theorem np_argsort_nodup (s : List R) : (np_argsort s).Nodup :=
  ((np_argsort_perm s).nodup_iff).2 (List.nodup_range _)

theorem argpartition_ok_of_le {n k : ℕ} (h1 : k ≠ 0) (h2 : k ≤ n) :
    argpartition_ok n k = true := by
  unfold argpartition_ok
  rw [if_neg h1]
  simpa using h2

theorem argpartition_ok_eq_false {n k : ℕ} (h : n < k) :
    argpartition_ok n k = false := by
  unfold argpartition_ok
  rw [if_neg (by omega : k ≠ 0)]
  simpa using h

theorem exact_topk_eq (s : List R) {k : ℕ} (hk : k ≠ 0) :
    exact_topk s k = ((np_argsort s).drop ((np_argsort s).length - k)).reverse := by
  unfold exact_topk lastSlice np_argsort_on
  rw [if_neg hk,
    List.Sorted.insertionSort_eq
      (List.Pairwise.sublist (List.drop_sublist _ _) (np_argsort_sorted s))]

theorem exact_topk_length (s : List R) {k : ℕ} (h1 : k ≠ 0) (h2 : k ≤ s.length) :
    (exact_topk s k).length = k := by
  rw [exact_topk_eq s h1, List.length_reverse, List.length_drop, np_argsort_length]
  omega

theorem mem_exact_topk (s : List R) {k i : ℕ} (h1 : k ≠ 0)
    (hi : i ∈ exact_topk s k) : i < s.length := by
  rw [exact_topk_eq s h1, List.mem_reverse] at hi
  exact (mem_np_argsort s).1 (List.mem_of_mem_drop hi)

theorem exact_topk_pairwise (s : List R) {k : ℕ} (h1 : k ≠ 0) :
    (exact_topk s k).Pairwise
      (fun a b => scoreAt s b < scoreAt s a ∨ (scoreAt s b = scoreAt s a ∧ b < a)) := by
  rw [exact_topk_eq s h1, List.pairwise_reverse]
  have hs : ((np_argsort s).drop ((np_argsort s).length - k)).Pairwise (idxLe s) :=
    List.Pairwise.sublist (List.drop_sublist _ _) (np_argsort_sorted s)
  have hn : ((np_argsort s).drop ((np_argsort s).length - k)).Pairwise (· ≠ ·) :=
    List.Nodup.sublist (List.drop_sublist _ _) (np_argsort_nodup s)
  refine (hs.and hn).imp ?_
  rintro a b ⟨hle | ⟨heq, hab⟩, hne⟩
  · exact Or.inl hle
  · exact Or.inr ⟨heq, lt_of_le_of_ne hab hne⟩

theorem exact_topk_opt (s : List R) {k : ℕ} (h1 : k ≠ 0) {j : ℕ}
    (hj : j < s.length) (hj' : j ∉ exact_topk s k) {i : ℕ}
    (hi : i ∈ exact_topk s k) : scoreAt s j ≤ scoreAt s i := by
  have hsplit :
      (np_argsort s).take ((np_argsort s).length - k) ++
        (np_argsort s).drop ((np_argsort s).length - k) = np_argsort s :=
    List.take_append_drop _ _
  have hsorted := np_argsort_sorted s
  rw [← hsplit] at hsorted
  have hcross := (List.pairwise_append.mp hsorted).2.2
  have hjmem : j ∈ np_argsort s := (mem_np_argsort s).2 hj
  rw [← hsplit] at hjmem
  rw [exact_topk_eq s h1, List.mem_reverse] at hi hj'
  have hjtake : j ∈ (np_argsort s).take ((np_argsort s).length - k) := by
    rcases List.mem_append.mp hjmem with h | h
    · exact h
    · exact absurd h hj'
  rcases hcross j hjtake i hi with h | ⟨h, _⟩
  · exact le_of_lt h
  · exact le_of_eq h

theorem exact_search_ok (sqrt : R → R) (embed1 : String → Except String (List R))
    (s : SearchService R) (query : String) (k : ℕ) (qe : List R)
    (hq : embed1 query = .ok qe)
    (hvalid : argpartition_ok s.embeddings.length k = true) :
    s.exact_search sqrt embed1 query k =
      .ok (exact_topk (s.embeddings.map (cosineSimilarity sqrt qe)) k,
           (exact_topk (s.embeddings.map (cosineSimilarity sqrt qe)) k).map
             (scoreAt (s.embeddings.map (cosineSimilarity sqrt qe)))) := by
  unfold SearchService.exact_search get_single_embedding
  rw [hq]
  simp [hvalid]

/-! ## C1 -/

/-- C1 (amended): for every query whose embedding call succeeds and every
`1 ≤ k ≤ N`, `exact_search` returns `k` valid document IDs with their
cosine-similarity scores, in descending score order, with every
non-returned document scoring no higher than any returned one — but
whenever two returned documents have equal scores, the one with the
LARGER document ID is listed first (the `[::-1]` reversal of the ascending
argsort flips ties; the spec's ascending-ID tie-break does not hold). -/
theorem c1_exact_search_order (embed1 : String → Except String (List ℝ))
    (s : SearchService ℝ) (query : String) (k : ℕ) (qe cs : List ℝ)
    (hq : embed1 query = .ok qe)
    (hcs : cs = s.embeddings.map (cosineSimilarity Real.sqrt qe))
    (hk1 : 1 ≤ k) (hk2 : k ≤ s.embeddings.length) :
    ∃ ids sims, s.exact_search Real.sqrt embed1 query k = .ok (ids, sims) ∧
      ids.length = k ∧
      sims = ids.map (scoreAt cs) ∧
      (∀ i ∈ ids, i < s.embeddings.length) ∧
      ids.Pairwise (fun a b => scoreAt cs b < scoreAt cs a ∨
        (scoreAt cs b = scoreAt cs a ∧ b < a)) ∧
      (∀ j < s.embeddings.length, j ∉ ids →
        ∀ i ∈ ids, scoreAt cs j ≤ scoreAt cs i) := by
  subst hcs
  have hk0 : k ≠ 0 := by omega
  have hlen : (s.embeddings.map (cosineSimilarity Real.sqrt qe)).length =
      s.embeddings.length := List.length_map _ _
  refine ⟨_, _,
    exact_search_ok Real.sqrt embed1 s query k qe hq
      (argpartition_ok_of_le hk0 hk2), ?_, rfl, ?_, ?_, ?_⟩
  · rw [exact_topk_length _ hk0 (by rw [hlen]; exact hk2)]
  · intro i hi
    have := mem_exact_topk _ hk0 hi
    rwa [hlen] at this
  · exact exact_topk_pairwise _ hk0
  · intro j hj hj' i hi
    exact exact_topk_opt _ hk0 (by rw [hlen]; exact hj) hj' hi

/-- C1 witness: the theorem applied to the two-document corpus
`[[1], [0]]` with query embedding `[1]` and `k = 1`. -/
theorem c1_exact_search_order_witness :
    ((fun _ : String => (Except.ok [(1 : ℝ)] : Except String (List ℝ))) "q" =
      Except.ok [(1 : ℝ)]) ∧
    (1 : ℕ) ≤ 1 ∧
    1 ≤ (SearchService.build Real.sqrt ([] : List (DBRow ℝ))
          [[(1 : ℝ)], [0]]).embeddings.length ∧
    (∃ ids sims,
      (SearchService.build Real.sqrt ([] : List (DBRow ℝ))
          [[(1 : ℝ)], [0]]).exact_search Real.sqrt
          (fun _ => Except.ok [(1 : ℝ)]) "q" 1 = .ok (ids, sims) ∧
      ids.length = 1 ∧
      sims = ids.map (scoreAt
        ((SearchService.build Real.sqrt ([] : List (DBRow ℝ))
            [[(1 : ℝ)], [0]]).embeddings.map
          (cosineSimilarity Real.sqrt [(1 : ℝ)]))) ∧
      (∀ i ∈ ids,
        i < (SearchService.build Real.sqrt ([] : List (DBRow ℝ))
              [[(1 : ℝ)], [0]]).embeddings.length) ∧
      ids.Pairwise (fun a b =>
        scoreAt ((SearchService.build Real.sqrt ([] : List (DBRow ℝ))
            [[(1 : ℝ)], [0]]).embeddings.map
          (cosineSimilarity Real.sqrt [(1 : ℝ)])) b <
        scoreAt ((SearchService.build Real.sqrt ([] : List (DBRow ℝ))
            [[(1 : ℝ)], [0]]).embeddings.map
          (cosineSimilarity Real.sqrt [(1 : ℝ)])) a ∨
        (scoreAt ((SearchService.build Real.sqrt ([] : List (DBRow ℝ))
            [[(1 : ℝ)], [0]]).embeddings.map
          (cosineSimilarity Real.sqrt [(1 : ℝ)])) b =
         scoreAt ((SearchService.build Real.sqrt ([] : List (DBRow ℝ))
            [[(1 : ℝ)], [0]]).embeddings.map
          (cosineSimilarity Real.sqrt [(1 : ℝ)])) a ∧ b < a)) ∧
      (∀ j < (SearchService.build Real.sqrt ([] : List (DBRow ℝ))
              [[(1 : ℝ)], [0]]).embeddings.length, j ∉ ids →
        ∀ i ∈ ids,
          scoreAt ((SearchService.build Real.sqrt ([] : List (DBRow ℝ))
              [[(1 : ℝ)], [0]]).embeddings.map
            (cosineSimilarity Real.sqrt [(1 : ℝ)])) j ≤
          scoreAt ((SearchService.build Real.sqrt ([] : List (DBRow ℝ))
              [[(1 : ℝ)], [0]]).embeddings.map
            (cosineSimilarity Real.sqrt [(1 : ℝ)])) i)) :=
  ⟨rfl, le_refl 1, by simp [SearchService.build],
    c1_exact_search_order (fun _ => Except.ok [(1 : ℝ)])
      (SearchService.build Real.sqrt [] [[(1 : ℝ)], [0]]) "q" 1 [(1 : ℝ)] _
      rfl rfl (le_refl 1) (by simp [SearchService.build])⟩

/-- Two equal scores: the pipeline lists index 1 before index 0. -/
theorem exact_topk_pair_eq (c : R) : exact_topk [c, c] 2 = [1, 0] := by
  have hr : List.range 2 = [0, 1] := by decide
  unfold exact_topk np_argsort np_argsort_on lastSlice
  simp only [List.length_cons, List.length_nil, hr]
  norm_num [List.insertionSort, List.orderedInsert, idxLe, scoreAt]

/-- C1 counterexample: on the corpus `[[1], [1]]` (both documents identical
to the query) with `k = 2`, exact search returns document 1 before
document 0 although their scores tie — the claimed ascending-ID tie order
`[0, 1]` is not what the code produces. -/
theorem c1_tie_order_cex :
    (SearchService.build Real.sqrt ([] : List (DBRow ℝ))
        [[(1 : ℝ)], [1]]).exact_search Real.sqrt
        (fun _ => Except.ok [(1 : ℝ)]) "q" 2 = .ok ([1, 0], [1, 1]) ∧
    (SearchService.build Real.sqrt ([] : List (DBRow ℝ))
        [[(1 : ℝ)], [1]]).exact_search Real.sqrt
        (fun _ => Except.ok [(1 : ℝ)]) "q" 2 ≠ .ok ([0, 1], [1, 1]) := by
  have hc : cosineSimilarity Real.sqrt [(1 : ℝ)] [1] = 1 := by
    norm_num [cosineSimilarity, sklearn_normalize, dot, Real.sqrt_one]
  have hmap : (SearchService.build Real.sqrt ([] : List (DBRow ℝ))
      [[(1 : ℝ)], [1]]).embeddings.map (cosineSimilarity Real.sqrt [(1 : ℝ)]) =
      [1, 1] := by
    simp [SearchService.build, hc]
  have hok := exact_search_ok Real.sqrt (fun _ => Except.ok [(1 : ℝ)])
    (SearchService.build Real.sqrt ([] : List (DBRow ℝ)) [[(1 : ℝ)], [1]])
    "q" 2 [(1 : ℝ)] rfl (by simp [SearchService.build, argpartition_ok])
  rw [hmap, exact_topk_pair_eq] at hok
  refine ⟨?_, ?_⟩
  · rw [hok]
    norm_num [scoreAt]
  · rw [hok]
    norm_num [scoreAt]

/-! ## C2 -/

theorem semantic_search_ok (sqrt : R → R)
    (embed1 : String → Except String (List R)) (s : SearchService R)
    (query : String) (k : ℕ) (qe : List R) (hq : embed1 query = .ok qe) :
    s.semantic_search sqrt embed1 query k =
      .ok (scann_index_search s.index (np_normalize sqrt qe) k) := by
  unfold SearchService.semantic_search get_single_embedding
  rw [hq]

/-- C2 (amended): when `k` exceeds the corpus size `N`, the approximate
search (ScaNN, modelled from the spec's contract) returns exactly all `N`
document IDs with their scores — but the exact search does NOT return all
`N` results: `np.argpartition(cos_sim_array, -k)` raises `kth out of
bounds`, so `exact_search` fails. -/
theorem c2_k_exceeds_corpus (embed1 : String → Except String (List ℝ))
    (db : List (DBRow ℝ)) (embs : List (List ℝ)) (query : String) (k : ℕ)
    (qe : List ℝ) (hq : embed1 query = .ok qe) (hk : embs.length < k) :
    (∃ ids sims,
      (SearchService.build Real.sqrt db embs).semantic_search Real.sqrt
          embed1 query k = .ok (ids, sims) ∧
      ids.length = embs.length ∧ sims.length = embs.length ∧
      ids.Perm (List.range embs.length)) ∧
    (SearchService.build Real.sqrt db embs).exact_search Real.sqrt embed1
        query k = .error ("Exact search failed: kth out of bounds") := by
  constructor
  · rw [semantic_search_ok Real.sqrt embed1 _ query k qe hq]
    unfold scann_index_search
    have hlen : (((SearchService.build Real.sqrt db embs).index).map
        (fun v => dot (np_normalize Real.sqrt qe) v)).length = embs.length := by
      simp [SearchService.build, build_index]
    set scores := ((SearchService.build Real.sqrt db embs).index).map
        (fun v => dot (np_normalize Real.sqrt qe) v) with hscores
    have htake : (np_argsort scores).reverse.take k = (np_argsort scores).reverse := by
      apply List.take_of_length_le
      rw [List.length_reverse, np_argsort_length, hlen]
      omega
    refine ⟨_, _, rfl, ?_, ?_, ?_⟩
    · rw [htake, List.length_reverse, np_argsort_length, hlen]
    · rw [htake, List.length_map, List.length_reverse, np_argsort_length, hlen]
    · rw [htake]
      have := (List.reverse_perm (np_argsort scores)).trans (np_argsort_perm scores)
      rwa [hlen] at this
  · unfold SearchService.exact_search get_single_embedding
    rw [hq]
    have : argpartition_ok (SearchService.build Real.sqrt db embs).embeddings.length k = false := by
      apply argpartition_ok_eq_false
      simpa [SearchService.build] using hk
    simp [this]

/-- C2 witness: corpus of one vector, `k = 2`. -/
theorem c2_k_exceeds_corpus_witness :
    ((fun _ : String => (Except.ok [(1 : ℝ)] : Except String (List ℝ))) "q" =
      Except.ok [(1 : ℝ)]) ∧
    ([[(1 : ℝ)]] : List (List ℝ)).length < 2 ∧
    ((∃ ids sims,
      (SearchService.build Real.sqrt ([] : List (DBRow ℝ))
          [[(1 : ℝ)]]).semantic_search Real.sqrt
          (fun _ => Except.ok [(1 : ℝ)]) "q" 2 = .ok (ids, sims) ∧
      ids.length = ([[(1 : ℝ)]] : List (List ℝ)).length ∧
      sims.length = ([[(1 : ℝ)]] : List (List ℝ)).length ∧
      ids.Perm (List.range ([[(1 : ℝ)]] : List (List ℝ)).length)) ∧
    (SearchService.build Real.sqrt ([] : List (DBRow ℝ))
        [[(1 : ℝ)]]).exact_search Real.sqrt
        (fun _ => Except.ok [(1 : ℝ)]) "q" 2 =
      .error ("Exact search failed: kth out of bounds")) :=
  ⟨rfl, by simp,
    c2_k_exceeds_corpus (fun _ => Except.ok [(1 : ℝ)]) [] [[(1 : ℝ)]] "q" 2
      [(1 : ℝ)] rfl (by simp)⟩

/-- C2 counterexample: with one corpus vector and `k = 2`, exact search
fails (`argpartition` rejects `kth = -2`) instead of returning the corpus's
single result. -/
theorem c2_exact_search_fails_cex :
    (SearchService.build Real.sqrt ([] : List (DBRow ℝ))
        [[(1 : ℝ)]]).exact_search Real.sqrt
        (fun _ => Except.ok [(1 : ℝ)]) "q" 2 =
      .error ("Exact search failed: kth out of bounds") ∧
    (SearchService.build Real.sqrt ([] : List (DBRow ℝ))
        [[(1 : ℝ)]]).embeddings.length < 2 := by
  constructor
  · unfold SearchService.exact_search get_single_embedding
    simp [SearchService.build, argpartition_ok]
  · simp [SearchService.build]

/-! ## C3 -/

/-- C3 (amended): construction performs no row-count validation at all.
`ApplicationService.__init__` / `SearchService.__init__` always succeed and
store the dataset and the embedding array unchanged — mismatched lengths
are neither rejected (no `CorpusIntegrityError` exists in the code) nor
truncated. -/
theorem c3_construction_no_validation (db : List (DBRow ℝ))
    (embs : List (List ℝ)) :
    (ApplicationService.build Real.sqrt db embs).database = db ∧
    (ApplicationService.build Real.sqrt db embs).embeddings = embs ∧
    (ApplicationService.build Real.sqrt db embs).search_service.database = db ∧
    (ApplicationService.build Real.sqrt db embs).search_service.embeddings = embs :=
  ⟨rfl, rfl, rfl, rfl⟩

/-- C3 counterexample: a two-row dataset paired with a one-row embedding
array constructs successfully, both sides kept at their full, different
lengths — the claimed `CorpusIntegrityError` failure does not happen. -/
theorem c3_mismatch_constructs_cex :
    (ApplicationService.build Real.sqrt
        [⟨"a", "b", [1]⟩, ⟨"c", "d", [2]⟩]
        [[(3 : ℝ)]]).search_service.database.length = 2 ∧
    (ApplicationService.build Real.sqrt
        [⟨"a", "b", [1]⟩, ⟨"c", "d", [2]⟩]
        [[(3 : ℝ)]]).search_service.embeddings.length = 1 ∧
    (2 : ℕ) ≠ 1 := by
  refine ⟨?_, ?_, by decide⟩ <;>
    simp [ApplicationService.build, SearchService.build]

/-! ## C4 -/

theorem dot_cons_cons (a b : R) (as bs : List R) :
    dot (a :: as) (b :: bs) = a * b + dot as bs := by
  simp [dot]

theorem dot_replicate_zero_left (d : ℕ) (v : List R) :
    dot (List.replicate d (0 : R)) v = 0 := by
  induction d generalizing v with
  | zero => simp [dot]
  | succ n ih =>
    cases v with
    | nil => simp [dot]
    | cons x xs =>
      rw [List.replicate_succ, dot_cons_cons, ih xs]
      ring

theorem cosineSimilarity_zero_left (sqrt : R → R) (hs : sqrt 0 = 0) (d : ℕ)
    (v : List R) : cosineSimilarity sqrt (List.replicate d 0) v = 0 := by
  have h1 : sklearn_normalize sqrt (List.replicate d (0 : R)) =
      List.replicate d 0 := by
    unfold sklearn_normalize
    rw [dot_replicate_zero_left, hs]
    simp
  unfold cosineSimilarity
  rw [h1, dot_replicate_zero_left]

theorem scoreAt_replicate_zero (n i : ℕ) :
    scoreAt (List.replicate n (0 : R)) i = 0 := by
  unfold scoreAt
  rcases lt_or_ge i n with h | h
  · rw [List.getD_eq_getElem _ _ (by simpa using h)]
    simp
  · rw [List.getD_eq_default _ _ (by simpa using h)]

/-- C4 (amended): no `QueryEmbeddingError` guard exists anywhere in the
code.  A degenerate all-zero query embedding is passed straight into the
search: for any `1 ≤ k ≤ N`, exact search runs on it and returns `k`
results whose scores are all `0` (sklearn's zero-norm handling), instead
of failing before the search. -/
theorem c4_zero_vector_reaches_search
    (embed1 : String → Except String (List ℝ)) (s : SearchService ℝ)
    (query : String) (d k : ℕ)
    (hq : embed1 query = .ok (List.replicate d (0 : ℝ)))
    (hk1 : 1 ≤ k) (hk2 : k ≤ s.embeddings.length) :
    ∃ ids sims, s.exact_search Real.sqrt embed1 query k = .ok (ids, sims) ∧
      ids.length = k ∧ sims = List.replicate k (0 : ℝ) := by
  have hk0 : k ≠ 0 := by omega
  have hcs : s.embeddings.map
      (cosineSimilarity Real.sqrt (List.replicate d (0 : ℝ))) =
      List.replicate s.embeddings.length 0 := by
    refine List.eq_replicate_iff.2 ⟨by simp, ?_⟩
    intro b hb
    rcases List.mem_map.1 hb with ⟨v, _, rfl⟩
    exact cosineSimilarity_zero_left Real.sqrt Real.sqrt_zero d v
  have hlen : (exact_topk (List.replicate s.embeddings.length (0 : ℝ)) k).length = k :=
    exact_topk_length _ hk0 (by simpa using hk2)
  refine ⟨_, _, exact_search_ok Real.sqrt embed1 s query k _ hq
    (argpartition_ok_of_le hk0 hk2), ?_, ?_⟩
  · rw [hcs, hlen]
  · rw [hcs]
    refine List.eq_replicate_iff.2 ⟨by simpa using hlen, ?_⟩
    intro b hb
    rcases List.mem_map.1 hb with ⟨i, _, rfl⟩
    exact scoreAt_replicate_zero _ _

/-- C4 witness: the theorem applied to a one-vector corpus and the all-zero
query embedding `[0]`. -/
theorem c4_zero_vector_reaches_search_witness :
    ((fun _ : String => (Except.ok [(0 : ℝ)] : Except String (List ℝ))) "q" =
      Except.ok (List.replicate 1 (0 : ℝ))) ∧
    (1 : ℕ) ≤ 1 ∧
    1 ≤ (SearchService.build Real.sqrt ([] : List (DBRow ℝ))
          [[(1 : ℝ)]]).embeddings.length ∧
    (∃ ids sims,
      (SearchService.build Real.sqrt ([] : List (DBRow ℝ))
          [[(1 : ℝ)]]).exact_search Real.sqrt
          (fun _ => Except.ok [(0 : ℝ)]) "q" 1 = .ok (ids, sims) ∧
      ids.length = 1 ∧ sims = List.replicate 1 (0 : ℝ)) :=
  ⟨rfl, le_refl 1, by simp [SearchService.build],
    c4_zero_vector_reaches_search (fun _ => Except.ok [(0 : ℝ)])
      (SearchService.build Real.sqrt [] [[(1 : ℝ)]]) "q" 1 1 rfl (le_refl 1)
      (by simp [SearchService.build])⟩

theorem exact_topk_singleton (c : R) : exact_topk [c] 1 = [0] := by
  unfold exact_topk np_argsort np_argsort_on lastSlice
  simp [List.insertionSort, List.orderedInsert]

/-- C4 counterexample: with the all-zero query embedding `[0]` and corpus
`[[1]]`, no `QueryEmbeddingError` is raised — the exact search executes and
returns a result (`doc 0`, score `0`), contradicting the claim that the
request fails before any search is made. -/
theorem c4_no_guard_cex :
    (SearchService.build Real.sqrt ([] : List (DBRow ℝ))
        [[(1 : ℝ)]]).exact_search Real.sqrt
        (fun _ => Except.ok [(0 : ℝ)]) "q" 1 = .ok ([0], [0]) := by
  have hc : cosineSimilarity Real.sqrt [(0 : ℝ)] [1] = 0 := by
    have : ([(0 : ℝ)] : List ℝ) = List.replicate 1 (0 : ℝ) := by simp
    rw [this]
    exact cosineSimilarity_zero_left Real.sqrt Real.sqrt_zero 1 [1]
  have hok := exact_search_ok Real.sqrt (fun _ => Except.ok [(0 : ℝ)])
    (SearchService.build Real.sqrt ([] : List (DBRow ℝ)) [[(1 : ℝ)]])
    "q" 1 [(0 : ℝ)] rfl (by simp [SearchService.build, argpartition_ok])
  have hmap : (SearchService.build Real.sqrt ([] : List (DBRow ℝ))
      [[(1 : ℝ)]]).embeddings.map (cosineSimilarity Real.sqrt [(0 : ℝ)]) =
      [0] := by
    simp [SearchService.build, hc]
  rw [hmap, exact_topk_singleton] at hok
  rw [hok]
  norm_num [scoreAt]

/-! ## Path lemmas for `search_and_answer` -/

theorem semantic_search_embed_error (sqrt : R → R)
    (embed1 : String → Except String (List R)) (s : SearchService R)
    (query : String) (k : ℕ) (e : String) (hq : embed1 query = .error e) :
    s.semantic_search sqrt embed1 query k =
      .error ("Semantic search failed: " ++ ("Failed to get embeddings: " ++ e)) := by
  unfold SearchService.semantic_search get_single_embedding
  rw [hq]

theorem exact_search_embed_error (sqrt : R → R)
    (embed1 : String → Except String (List R)) (s : SearchService R)
    (query : String) (k : ℕ) (e : String) (hq : embed1 query = .error e) :
    s.exact_search sqrt embed1 query k =
      .error ("Exact search failed: " ++ ("Failed to get embeddings: " ++ e)) := by
  unfold SearchService.exact_search get_single_embedding
  rw [hq]

theorem search_and_answer_of_search_error (sqrt : R → R)
    (embed1 : String → Except String (List R))
    (generate : String → Except String String) (s : SearchService R)
    (t_start t_end : R) (query : String) (ua : Bool) (k : ℕ) (e : String)
    (hsearch : (if ua then s.semantic_search sqrt embed1 query k
                else s.exact_search sqrt embed1 query k) = .error e) :
    search_and_answer sqrt embed1 generate s t_start t_end query ua k =
      failure_envelope e ((t_end - t_start) * 1000) := by
  unfold search_and_answer
  rw [hsearch]

theorem search_and_answer_of_empty (sqrt : R → R)
    (embed1 : String → Except String (List R))
    (generate : String → Except String String) (s : SearchService R)
    (t_start t_end : R) (query : String) (ua : Bool) (k : ℕ) (sims : List R)
    (hsearch : (if ua then s.semantic_search sqrt embed1 query k
                else s.exact_search sqrt embed1 query k) = .ok ([], sims)) :
    search_and_answer sqrt embed1 generate s t_start t_end query ua k =
      failure_envelope "list index out of range" ((t_end - t_start) * 1000) := by
  unfold search_and_answer
  rw [hsearch]
  rfl

theorem search_and_answer_of_doc_none (sqrt : R → R)
    (embed1 : String → Except String (List R))
    (generate : String → Except String String) (s : SearchService R)
    (t_start t_end : R) (query : String) (ua : Bool) (k : ℕ) (i : ℕ)
    (ids : List ℕ) (si : R) (sims : List R)
    (hsearch : (if ua then s.semantic_search sqrt embed1 query k
                else s.exact_search sqrt embed1 query k) = .ok (i :: ids, si :: sims))
    (hdoc : s.get_document (i : ℤ) = none) :
    search_and_answer sqrt embed1 generate s t_start t_end query ua k =
      failure_envelope "No relevant document found" ((t_end - t_start) * 1000) := by
  unfold search_and_answer
  rw [hsearch]
  simp only [List.head?]
  rw [hdoc]

theorem search_and_answer_of_gen_error (sqrt : R → R)
    (embed1 : String → Except String (List R))
    (generate : String → Except String String) (s : SearchService R)
    (t_start t_end : R) (query : String) (ua : Bool) (k : ℕ) (i : ℕ)
    (ids : List ℕ) (si : R) (sims : List R) (doc : Document R) (g : String)
    (hsearch : (if ua then s.semantic_search sqrt embed1 query k
                else s.exact_search sqrt embed1 query k) = .ok (i :: ids, si :: sims))
    (hdoc : s.get_document (i : ℤ) = some doc)
    (hgen : generate (build_prompt query
      ("Question: " ++ doc.question ++ "\nAnswer: " ++ doc.answer)) = .error g) :
    search_and_answer sqrt embed1 generate s t_start t_end query ua k =
      failure_envelope ("Failed to generate answer: " ++ g)
        ((t_end - t_start) * 1000) := by
  unfold search_and_answer
  rw [hsearch]
  simp only [List.head?]
  rw [hdoc]
  dsimp only
  unfold generate_answer
  rw [hgen]

theorem search_and_answer_of_success (sqrt : R → R)
    (embed1 : String → Except String (List R))
    (generate : String → Except String String) (s : SearchService R)
    (t_start t_end : R) (query : String) (ua : Bool) (k : ℕ) (i : ℕ)
    (ids : List ℕ) (si : R) (sims : List R) (doc : Document R) (ans : String)
    (hsearch : (if ua then s.semantic_search sqrt embed1 query k
                else s.exact_search sqrt embed1 query k) = .ok (i :: ids, si :: sims))
    (hdoc : s.get_document (i : ℤ) = some doc)
    (hgen : generate (build_prompt query
      ("Question: " ++ doc.question ++ "\nAnswer: " ++ doc.answer)) = .ok ans) :
    search_and_answer sqrt embed1 generate s t_start t_end query ua k =
      success_envelope query ans.trim doc si ua ((t_end - t_start) * 1000) := by
  unfold search_and_answer
  rw [hsearch]
  simp only [List.head?]
  rw [hdoc]
  dsimp only
  unfold generate_answer
  rw [hgen]

theorem generate_answer_ok_inv {gen : String → Except String String}
    {q c a : String} (h : generate_answer gen q c = .ok a) :
    ∃ p r', gen p = Except.ok r' := by
  unfold generate_answer at h
  rcases hg : gen (build_prompt q c) with e | t
  · rw [hg] at h
    exact absurd h (by simp)
  · exact ⟨_, _, hg⟩

/-- Every run ends in a failure envelope or a success envelope carrying
`(t_end - t_start) * 1000` as its latency; a success moreover implies the
generation provider returned a result. -/
theorem search_and_answer_shape (sqrt : R → R)
    (embed1 : String → Except String (List R))
    (generate : String → Except String String) (s : SearchService R)
    (t_start t_end : R) (query : String) (ua : Bool) (k : ℕ) :
    (∃ e, search_and_answer sqrt embed1 generate s t_start t_end query ua k =
      failure_envelope e ((t_end - t_start) * 1000)) ∨
    (∃ ans doc si,
      search_and_answer sqrt embed1 generate s t_start t_end query ua k =
        success_envelope query ans doc si ua ((t_end - t_start) * 1000) ∧
      ∃ p r', generate p = Except.ok r') := by
  unfold search_and_answer
  split
  · exact Or.inl ⟨_, rfl⟩
  · split
    · exact Or.inl ⟨_, rfl⟩
    · exact Or.inl ⟨_, rfl⟩
    · split
      · exact Or.inl ⟨_, rfl⟩
      · dsimp only
        split
        · exact Or.inl ⟨_, rfl⟩
        · rename_i answer heq
          exact Or.inr ⟨_, _, _, rfl, generate_answer_ok_inv heq⟩

/-! ## C5 -/

/-- C5 (confirmed): with a monotone wall clock (`t_start ≤ t_end`), every
call of `search_and_answer` terminates in an envelope whose `latency_ms` is
the elapsed time and is `≥ 0`; a failing embedding call surfaces as a
`success = false` envelope carrying the wrapped error message, a generation
provider that never returns a result can never yield success, every failure
envelope carries an error message, and every success envelope carries an
answer and no error — no error propagates out of this boundary (the
function is total by construction). -/
theorem c5_envelope_latency_and_recovery
    (embed1 : String → Except String (List ℝ))
    (generate : String → Except String String) (s : SearchService ℝ)
    (t_start t_end : ℝ) (query : String) (ua : Bool) (k : ℕ)
    (r : QueryOutcome ℝ)
    (hr : r = search_and_answer Real.sqrt embed1 generate s t_start t_end
      query ua k)
    (h : t_start ≤ t_end) :
    r.latency_ms = (t_end - t_start) * 1000 ∧
    0 ≤ r.latency_ms ∧
    (∀ e, embed1 query = .error e → r.success = false ∧
      r.error = some ((if ua then "Semantic search failed: "
                       else "Exact search failed: ") ++
        ("Failed to get embeddings: " ++ e))) ∧
    ((∀ p a, generate p ≠ Except.ok a) → r.success = false) ∧
    (r.success = false → r.error.isSome = true) ∧
    (r.success = true → r.error = none ∧ r.answer.isSome = true) := by
  subst hr
  have hshape := search_and_answer_shape Real.sqrt embed1 generate s t_start
    t_end query ua k
  have hlat : (search_and_answer Real.sqrt embed1 generate s t_start t_end
      query ua k).latency_ms = (t_end - t_start) * 1000 := by
    rcases hshape with ⟨e, he⟩ | ⟨ans, doc, si, hs, _⟩
    · rw [he]; rfl
    · rw [hs]; rfl
  refine ⟨hlat, ?_, ?_, ?_, ?_, ?_⟩
  · rw [hlat]
    exact mul_nonneg (sub_nonneg.2 h) (by norm_num)
  · intro e he
    have hsearch : (if ua then s.semantic_search Real.sqrt embed1 query k
        else s.exact_search Real.sqrt embed1 query k) =
        .error ((if ua then "Semantic search failed: "
                 else "Exact search failed: ") ++
          ("Failed to get embeddings: " ++ e)) := by
      cases ua
      · simpa using exact_search_embed_error Real.sqrt embed1 s query k e he
      · simpa using semantic_search_embed_error Real.sqrt embed1 s query k e he
    rw [search_and_answer_of_search_error Real.sqrt embed1 generate s t_start
      t_end query ua k _ hsearch]
    exact ⟨rfl, rfl⟩
  · intro hgen
    rcases hshape with ⟨e, he⟩ | ⟨ans, doc, si, _, p, a, hp⟩
    · rw [he]; rfl
    · exact absurd hp (hgen p a)
  · intro hfail
    rcases hshape with ⟨e, he⟩ | ⟨ans, doc, si, hs, _⟩
    · rw [he]; rfl
    · rw [hs] at hfail
      exact absurd hfail (by simp [success_envelope])
  · intro hsucc
    rcases hshape with ⟨e, he⟩ | ⟨ans, doc, si, hs, _⟩
    · rw [he] at hsucc
      exact absurd hsucc (by simp [failure_envelope])
    · rw [hs]
      exact ⟨rfl, rfl⟩

/-- C5 witness: a failing embedding provider, clock readings 0 and 1. -/
theorem c5_envelope_latency_and_recovery_witness :
    ((search_and_answer Real.sqrt (fun _ => Except.error "boom")
        (fun _ => Except.ok "hi")
        (SearchService.build Real.sqrt ([] : List (DBRow ℝ)) [])
        0 1 "q" true 1 : QueryOutcome ℝ) =
      search_and_answer Real.sqrt (fun _ => Except.error "boom")
        (fun _ => Except.ok "hi")
        (SearchService.build Real.sqrt ([] : List (DBRow ℝ)) [])
        0 1 "q" true 1) ∧
    ((0 : ℝ) ≤ 1) ∧
    ((search_and_answer Real.sqrt (fun _ => Except.error "boom")
        (fun _ => Except.ok "hi")
        (SearchService.build Real.sqrt ([] : List (DBRow ℝ)) [])
        0 1 "q" true 1).latency_ms = ((1 : ℝ) - 0) * 1000 ∧
    0 ≤ (search_and_answer Real.sqrt (fun _ => Except.error "boom")
        (fun _ => Except.ok "hi")
        (SearchService.build Real.sqrt ([] : List (DBRow ℝ)) [])
        0 1 "q" true 1).latency_ms ∧
    (∀ e, (fun _ : String => (Except.error "boom" : Except String (List ℝ))) "q"
        = .error e →
      (search_and_answer Real.sqrt (fun _ => Except.error "boom")
        (fun _ => Except.ok "hi")
        (SearchService.build Real.sqrt ([] : List (DBRow ℝ)) [])
        0 1 "q" true 1).success = false ∧
      (search_and_answer Real.sqrt (fun _ => Except.error "boom")
        (fun _ => Except.ok "hi")
        (SearchService.build Real.sqrt ([] : List (DBRow ℝ)) [])
        0 1 "q" true 1).error = some ((if true then "Semantic search failed: "
                       else "Exact search failed: ") ++
        ("Failed to get embeddings: " ++ e))) ∧
    ((∀ p a, (fun _ : String => (Except.ok "hi" : Except String String)) p ≠
        Except.ok a) →
      (search_and_answer Real.sqrt (fun _ => Except.error "boom")
        (fun _ => Except.ok "hi")
        (SearchService.build Real.sqrt ([] : List (DBRow ℝ)) [])
        0 1 "q" true 1).success = false) ∧
    ((search_and_answer Real.sqrt (fun _ => Except.error "boom")
        (fun _ => Except.ok "hi")
        (SearchService.build Real.sqrt ([] : List (DBRow ℝ)) [])
        0 1 "q" true 1).success = false →
      (search_and_answer Real.sqrt (fun _ => Except.error "boom")
        (fun _ => Except.ok "hi")
        (SearchService.build Real.sqrt ([] : List (DBRow ℝ)) [])
        0 1 "q" true 1).error.isSome = true) ∧
    ((search_and_answer Real.sqrt (fun _ => Except.error "boom")
        (fun _ => Except.ok "hi")
        (SearchService.build Real.sqrt ([] : List (DBRow ℝ)) [])
        0 1 "q" true 1).success = true →
      (search_and_answer Real.sqrt (fun _ => Except.error "boom")
        (fun _ => Except.ok "hi")
        (SearchService.build Real.sqrt ([] : List (DBRow ℝ)) [])
        0 1 "q" true 1).error = none ∧
      (search_and_answer Real.sqrt (fun _ => Except.error "boom")
        (fun _ => Except.ok "hi")
        (SearchService.build Real.sqrt ([] : List (DBRow ℝ)) [])
        0 1 "q" true 1).answer.isSome = true)) :=
  ⟨rfl, by norm_num,
    c5_envelope_latency_and_recovery (fun _ => Except.error "boom")
      (fun _ => Except.ok "hi")
      (SearchService.build Real.sqrt ([] : List (DBRow ℝ)) [])
      0 1 "q" true 1 _ rfl (by norm_num)⟩

/-! ## C6 -/

theorem scann_index_search_zero (index : List (List R)) (q : List R) :
    scann_index_search index q 0 = ([], []) := by
  unfold scann_index_search
  simp

/-- C6 (amended): whenever the chosen search returns an empty result list,
`search_and_answer` returns a failure envelope (success = false, latency
set, no unhandled error) — but NOT one with a distinguishable `NoMatch`
error kind: the reading `doc_ids[0]` raises `IndexError`, and the generic
handler stores its message `list index out of range`, indistinguishable
from a system error. -/
theorem c6_empty_result_failure (embed1 : String → Except String (List ℝ))
    (generate : String → Except String String) (s : SearchService ℝ)
    (t_start t_end : ℝ) (query : String) (ua : Bool) (k : ℕ) (sims : List ℝ)
    (hempty : (if ua then s.semantic_search Real.sqrt embed1 query k
               else s.exact_search Real.sqrt embed1 query k) = .ok ([], sims)) :
    search_and_answer Real.sqrt embed1 generate s t_start t_end query ua k =
      failure_envelope "list index out of range" ((t_end - t_start) * 1000) ∧
    (search_and_answer Real.sqrt embed1 generate s t_start t_end query ua
      k).success = false ∧
    (search_and_answer Real.sqrt embed1 generate s t_start t_end query ua
      k).answer = none ∧
    (search_and_answer Real.sqrt embed1 generate s t_start t_end query ua
      k).error = some "list index out of range" := by
  have h := search_and_answer_of_empty Real.sqrt embed1 generate s t_start
    t_end query ua k sims hempty
  exact ⟨h, by rw [h]; rfl, by rw [h]; rfl, by rw [h]; rfl⟩

/-- C6 witness: the approximate search with `k = 0` returns the empty result
list, and the theorem applies. -/
theorem c6_empty_result_failure_witness :
    ((if true then
        (SearchService.build Real.sqrt ([] : List (DBRow ℝ))
          [[(1 : ℝ)]]).semantic_search Real.sqrt
          (fun _ => Except.ok [(1 : ℝ)]) "q" 0
      else
        (SearchService.build Real.sqrt ([] : List (DBRow ℝ))
          [[(1 : ℝ)]]).exact_search Real.sqrt
          (fun _ => Except.ok [(1 : ℝ)]) "q" 0) = .ok ([], [])) ∧
    (search_and_answer Real.sqrt (fun _ => Except.ok [(1 : ℝ)])
        (fun _ => Except.ok "ans")
        (SearchService.build Real.sqrt ([] : List (DBRow ℝ)) [[(1 : ℝ)]])
        0 1 "q" true 0 =
      failure_envelope "list index out of range" (((1 : ℝ) - 0) * 1000) ∧
    (search_and_answer Real.sqrt (fun _ => Except.ok [(1 : ℝ)])
        (fun _ => Except.ok "ans")
        (SearchService.build Real.sqrt ([] : List (DBRow ℝ)) [[(1 : ℝ)]])
        0 1 "q" true 0).success = false ∧
    (search_and_answer Real.sqrt (fun _ => Except.ok [(1 : ℝ)])
        (fun _ => Except.ok "ans")
        (SearchService.build Real.sqrt ([] : List (DBRow ℝ)) [[(1 : ℝ)]])
        0 1 "q" true 0).answer = none ∧
    (search_and_answer Real.sqrt (fun _ => Except.ok [(1 : ℝ)])
        (fun _ => Except.ok "ans")
        (SearchService.build Real.sqrt ([] : List (DBRow ℝ)) [[(1 : ℝ)]])
        0 1 "q" true 0).error = some "list index out of range") :=
  ⟨by
    rw [if_pos rfl,
      semantic_search_ok Real.sqrt (fun _ => Except.ok [(1 : ℝ)])
        (SearchService.build Real.sqrt ([] : List (DBRow ℝ)) [[(1 : ℝ)]])
        "q" 0 [(1 : ℝ)] rfl,
      scann_index_search_zero],
   c6_empty_result_failure (fun _ => Except.ok [(1 : ℝ)])
     (fun _ => Except.ok "ans")
     (SearchService.build Real.sqrt ([] : List (DBRow ℝ)) [[(1 : ℝ)]])
     0 1 "q" true 0 []
     (by
       rw [if_pos rfl,
         semantic_search_ok Real.sqrt (fun _ => Except.ok [(1 : ℝ)])
           (SearchService.build Real.sqrt ([] : List (DBRow ℝ)) [[(1 : ℝ)]])
           "q" 0 [(1 : ℝ)] rfl,
         scann_index_search_zero])⟩

/-- C6 counterexample: an empty result list produces a failure whose error
is the Python `IndexError` message `list index out of range` — not a
`NoMatch` kind (no such kind exists in the code), so the claimed
distinguishability fails. -/
theorem c6_no_nomatch_kind_cex :
    search_and_answer Real.sqrt (fun _ => Except.ok [(1 : ℝ)])
        (fun _ => Except.ok "ans")
        (SearchService.build Real.sqrt ([] : List (DBRow ℝ)) [[(1 : ℝ)]])
        0 0 "q" true 0 =
      failure_envelope "list index out of range" 0 ∧
    "list index out of range" ≠ "NoMatch" := by
  constructor
  · have hempty : (if true then
        (SearchService.build Real.sqrt ([] : List (DBRow ℝ))
          [[(1 : ℝ)]]).semantic_search Real.sqrt
          (fun _ => Except.ok [(1 : ℝ)]) "q" 0
      else
        (SearchService.build Real.sqrt ([] : List (DBRow ℝ))
          [[(1 : ℝ)]]).exact_search Real.sqrt
          (fun _ => Except.ok [(1 : ℝ)]) "q" 0) = .ok ([], ([] : List ℝ)) := by
      rw [if_pos rfl,
        semantic_search_ok Real.sqrt (fun _ => Except.ok [(1 : ℝ)])
          (SearchService.build Real.sqrt ([] : List (DBRow ℝ)) [[(1 : ℝ)]])
          "q" 0 [(1 : ℝ)] rfl,
        scann_index_search_zero]
    rw [search_and_answer_of_empty Real.sqrt _ _ _ 0 0 "q" true 0 [] hempty]
    norm_num [failure_envelope]
  · decide

/-! ## C10 -/

/-- C10 (confirmed): every failure envelope (success = false) carries only
the success flag, the error message and the latency: the `query`, `answer`,
`source_document` and `search_method` keys are absent, so a failed request
never exposes a partial result. -/
theorem c10_failure_envelope_minimal
    (embed1 : String → Except String (List ℝ))
    (generate : String → Except String String) (s : SearchService ℝ)
    (t_start t_end : ℝ) (query : String) (ua : Bool) (k : ℕ)
    (hfail : (search_and_answer Real.sqrt embed1 generate s t_start t_end
      query ua k).success = false) :
    (search_and_answer Real.sqrt embed1 generate s t_start t_end query ua
      k).query = none ∧
    (search_and_answer Real.sqrt embed1 generate s t_start t_end query ua
      k).answer = none ∧
    (search_and_answer Real.sqrt embed1 generate s t_start t_end query ua
      k).source_document = none ∧
    (search_and_answer Real.sqrt embed1 generate s t_start t_end query ua
      k).search_method = none ∧
    (search_and_answer Real.sqrt embed1 generate s t_start t_end query ua
      k).error.isSome = true := by
  rcases search_and_answer_shape Real.sqrt embed1 generate s t_start t_end
    query ua k with ⟨e, he⟩ | ⟨ans, doc, si, hs, _⟩
  · rw [he]
    exact ⟨rfl, rfl, rfl, rfl, rfl⟩
  · rw [hs] at hfail
    exact absurd hfail (by simp [success_envelope])

/-- C10 witness: a failing embedding provider on the exact path. -/
theorem c10_failure_envelope_minimal_witness :
    ((search_and_answer Real.sqrt (fun _ => Except.error "x")
        (fun _ => Except.ok "y")
        (SearchService.build Real.sqrt ([] : List (DBRow ℝ)) [])
        0 0 "q" false 1).success = false) ∧
    ((search_and_answer Real.sqrt (fun _ => Except.error "x")
        (fun _ => Except.ok "y")
        (SearchService.build Real.sqrt ([] : List (DBRow ℝ)) [])
        0 0 "q" false 1).query = none ∧
    (search_and_answer Real.sqrt (fun _ => Except.error "x")
        (fun _ => Except.ok "y")
        (SearchService.build Real.sqrt ([] : List (DBRow ℝ)) [])
        0 0 "q" false 1).answer = none ∧
    (search_and_answer Real.sqrt (fun _ => Except.error "x")
        (fun _ => Except.ok "y")
        (SearchService.build Real.sqrt ([] : List (DBRow ℝ)) [])
        0 0 "q" false 1).source_document = none ∧
    (search_and_answer Real.sqrt (fun _ => Except.error "x")
        (fun _ => Except.ok "y")
        (SearchService.build Real.sqrt ([] : List (DBRow ℝ)) [])
        0 0 "q" false 1).search_method = none ∧
    (search_and_answer Real.sqrt (fun _ => Except.error "x")
        (fun _ => Except.ok "y")
        (SearchService.build Real.sqrt ([] : List (DBRow ℝ)) [])
        0 0 "q" false 1).error.isSome = true) :=
  ⟨by
    rw [search_and_answer_of_search_error Real.sqrt _ _ _ 0 0 "q" false 1 _
      (by
        rw [if_neg (by simp)]
        exact exact_search_embed_error Real.sqrt _ _ "q" 1 "x" rfl)]
    rfl,
   c10_failure_envelope_minimal (fun _ => Except.error "x")
     (fun _ => Except.ok "y")
     (SearchService.build Real.sqrt ([] : List (DBRow ℝ)) [])
     0 0 "q" false 1
     (by
       rw [search_and_answer_of_search_error Real.sqrt _ _ _ 0 0 "q" false 1 _
         (by
           rw [if_neg (by simp)]
           exact exact_search_embed_error Real.sqrt _ _ "q" 1 "x" rfl)]
       rfl)⟩

/-! ## C7 -/

/-- C7 (amended): for every `i` in `[0, N)`, `get_document(i)` returns the
document whose `embeddings` field is the dataset row's own `embeddings`
column value — the separately loaded embedding array is neither consulted
nor validated, so the field equals `EmbeddingMatrix[i]` only when the two
data sources happen to agree; for every `i` outside `[0, N)` it returns the
not-found value `None`. -/
theorem c7_get_document_row_embeddings (s : SearchService ℝ) (i : ℤ)
    (row : DBRow ℝ) :
    (s.database.get? i.toNat = some row → 0 ≤ i →
      s.get_document i = some ⟨i, row.input_text, row.output_text,
        row.embeddings⟩) ∧
    (¬ (0 ≤ i ∧ i < s.database.length) → s.get_document i = none) := by
  constructor
  · intro hrow hi
    have hlt : i.toNat < s.database.length := by
      rcases List.get?_eq_some.1 hrow with ⟨h, _⟩
      exact h
    unfold SearchService.get_document
    rw [if_pos ⟨hi, by omega⟩, hrow]
    rfl
  · intro h
    unfold SearchService.get_document
    rw [if_neg h]

/-- C7 witness: a one-row service; lookup at `0` succeeds with the row's own
column value, lookup at `-1` is not-found. -/
theorem c7_get_document_row_embeddings_witness :
    ((SearchService.build Real.sqrt [⟨"What is X?", "X is Y.", [(5 : ℝ)]⟩]
        [[7]]).database.get? (Int.toNat 0) =
      some ⟨"What is X?", "X is Y.", [(5 : ℝ)]⟩) ∧
    ((0 : ℤ) ≤ 0) ∧
    ((SearchService.build Real.sqrt [⟨"What is X?", "X is Y.", [(5 : ℝ)]⟩]
        [[7]]).get_document 0 =
      some ⟨0, "What is X?", "X is Y.", [(5 : ℝ)]⟩) ∧
    (¬ ((0 : ℤ) ≤ -1 ∧ (-1 : ℤ) <
      (SearchService.build Real.sqrt [⟨"What is X?", "X is Y.", [(5 : ℝ)]⟩]
        [[7]]).database.length)) ∧
    ((SearchService.build Real.sqrt [⟨"What is X?", "X is Y.", [(5 : ℝ)]⟩]
        [[7]]).get_document (-1) = none) :=
  ⟨rfl, by decide,
    (c7_get_document_row_embeddings
      (SearchService.build Real.sqrt [⟨"What is X?", "X is Y.", [(5 : ℝ)]⟩]
        [[7]]) 0 ⟨"What is X?", "X is Y.", [(5 : ℝ)]⟩).1 rfl (by decide),
    by decide,
    (c7_get_document_row_embeddings
      (SearchService.build Real.sqrt [⟨"What is X?", "X is Y.", [(5 : ℝ)]⟩]
        [[7]]) (-1) ⟨"What is X?", "X is Y.", [(5 : ℝ)]⟩).2 (by decide)⟩

/-- C7 counterexample: a service whose dataset row carries embeddings column
`[5]` while the loaded embedding array row is `[7]`: `get_document 0`
returns the column value `[5]`, which differs from `EmbeddingMatrix[0] =
[7]` — the claimed equality with the embedding array fails. -/
theorem c7_embeddings_column_cex :
    (SearchService.build Real.sqrt [⟨"What is X?", "X is Y.", [(5 : ℝ)]⟩]
        [[7]]).get_document 0 =
      some ⟨0, "What is X?", "X is Y.", [(5 : ℝ)]⟩ ∧
    (SearchService.build Real.sqrt [⟨"What is X?", "X is Y.", [(5 : ℝ)]⟩]
        [[7]]).embeddings.get? 0 = some [(7 : ℝ)] ∧
    ([(5 : ℝ)] ≠ [(7 : ℝ)]) := by
  refine ⟨?_, rfl, by norm_num⟩
  unfold SearchService.get_document
  rw [if_pos (by constructor <;> simp [SearchService.build])]
  rfl

/-! ## C8 -/

/-- C8 (confirmed): on the success path the grounding context handed to the
generation provider is exactly `"Question: {q}\nAnswer: {a}"` instantiated
with the retrieved document's question and answer, the prompt is exactly
`build_prompt` applied to the query and that context, and `build_prompt`
reproduces the section-6 template character for character. -/
theorem c8_prompt_template (embed1 : String → Except String (List ℝ))
    (generate : String → Except String String) (s : SearchService ℝ)
    (t_start t_end : ℝ) (query : String) (ua : Bool) (k : ℕ) (i : ℕ)
    (ids : List ℕ) (si : ℝ) (sims : List ℝ) (doc : Document ℝ) (ans : String)
    (hsearch : (if ua then s.semantic_search Real.sqrt embed1 query k
                else s.exact_search Real.sqrt embed1 query k) =
      .ok (i :: ids, si :: sims))
    (hdoc : s.get_document (i : ℤ) = some doc)
    (hgen : generate (build_prompt query ("Question: " ++ doc.question ++
      "\nAnswer: " ++ doc.answer)) = .ok ans) :
    search_and_answer Real.sqrt embed1 generate s t_start t_end query ua k =
      success_envelope query ans.trim doc si ua ((t_end - t_start) * 1000) ∧
    build_prompt "QUERY" ("Question: " ++ "Q" ++ "\nAnswer: " ++ "A") =
      "Here is the context: Question: Q\nAnswer: A\n\nUsing the relevant information from the context, provide an answer to the query: \"QUERY\".\n\nIf the context doesn't provide any relevant information, answer with:\n[I couldn't find a good match in the document database for your query]\n\nAnswer:" :=
  ⟨search_and_answer_of_success Real.sqrt embed1 generate s t_start t_end
      query ua k i ids si sims doc ans hsearch hdoc hgen,
   by simp [build_prompt]⟩

/-- C8 witness: the spec's one-document scenario — corpus
`{id: 0, question: "What is X?", answer: "X is Y."}`, stub embedding
provider returning the stored embedding, stub generation provider echoing
the prompt, exact mode. -/
theorem c8_prompt_template_witness :
    ((if false then
        (SearchService.build Real.sqrt
          [⟨"What is X?", "X is Y.", [(1 : ℝ)]⟩] [[1]]).semantic_search
          Real.sqrt (fun _ => Except.ok [(1 : ℝ)]) "What is X?" 1
      else
        (SearchService.build Real.sqrt
          [⟨"What is X?", "X is Y.", [(1 : ℝ)]⟩] [[1]]).exact_search
          Real.sqrt (fun _ => Except.ok [(1 : ℝ)]) "What is X?" 1) =
      .ok ([0], [1])) ∧
    ((SearchService.build Real.sqrt
        [⟨"What is X?", "X is Y.", [(1 : ℝ)]⟩] [[1]]).get_document
        ((0 : ℕ) : ℤ) = some ⟨0, "What is X?", "X is Y.", [(1 : ℝ)]⟩) ∧
    ((fun p => (Except.ok p : Except String String))
        (build_prompt "What is X?" ("Question: " ++ "What is X?" ++
          "\nAnswer: " ++ "X is Y.")) =
      .ok (build_prompt "What is X?" ("Question: " ++ "What is X?" ++
          "\nAnswer: " ++ "X is Y."))) ∧
    (search_and_answer Real.sqrt (fun _ => Except.ok [(1 : ℝ)])
        (fun p => Except.ok p)
        (SearchService.build Real.sqrt
          [⟨"What is X?", "X is Y.", [(1 : ℝ)]⟩] [[1]])
        0 0 "What is X?" false 1 =
      success_envelope "What is X?"
        (build_prompt "What is X?" ("Question: " ++ "What is X?" ++
          "\nAnswer: " ++ "X is Y.")).trim
        ⟨0, "What is X?", "X is Y.", [(1 : ℝ)]⟩ 1 false (((0 : ℝ) - 0) * 1000) ∧
    build_prompt "QUERY" ("Question: " ++ "Q" ++ "\nAnswer: " ++ "A") =
      "Here is the context: Question: Q\nAnswer: A\n\nUsing the relevant information from the context, provide an answer to the query: \"QUERY\".\n\nIf the context doesn't provide any relevant information, answer with:\n[I couldn't find a good match in the document database for your query]\n\nAnswer:") := by
  have hsearch : (if false then
      (SearchService.build Real.sqrt
        [⟨"What is X?", "X is Y.", [(1 : ℝ)]⟩] [[1]]).semantic_search
        Real.sqrt (fun _ => Except.ok [(1 : ℝ)]) "What is X?" 1
    else
      (SearchService.build Real.sqrt
        [⟨"What is X?", "X is Y.", [(1 : ℝ)]⟩] [[1]]).exact_search
        Real.sqrt (fun _ => Except.ok [(1 : ℝ)]) "What is X?" 1) =
      .ok ([0], [1]) := by
    rw [if_neg (by simp)]
    have hc : cosineSimilarity Real.sqrt [(1 : ℝ)] [1] = 1 := by
      norm_num [cosineSimilarity, sklearn_normalize, dot, Real.sqrt_one]
    have hok := exact_search_ok Real.sqrt (fun _ => Except.ok [(1 : ℝ)])
      (SearchService.build Real.sqrt
        [⟨"What is X?", "X is Y.", [(1 : ℝ)]⟩] [[1]])
      "What is X?" 1 [(1 : ℝ)] rfl
      (by simp [SearchService.build, argpartition_ok])
    have hmap : (SearchService.build Real.sqrt
        [⟨"What is X?", "X is Y.", [(1 : ℝ)]⟩] [[1]]).embeddings.map
        (cosineSimilarity Real.sqrt [(1 : ℝ)]) = [1] := by
      simp [SearchService.build, hc]
    rw [hmap, exact_topk_singleton] at hok
    rw [hok]
    norm_num [scoreAt]
  have hdoc : (SearchService.build Real.sqrt
      [⟨"What is X?", "X is Y.", [(1 : ℝ)]⟩] [[1]]).get_document
      ((0 : ℕ) : ℤ) = some ⟨0, "What is X?", "X is Y.", [(1 : ℝ)]⟩ := by
    unfold SearchService.get_document
    rw [if_pos (by constructor <;> simp [SearchService.build])]
    rfl
  exact ⟨hsearch, hdoc, rfl,
    c8_prompt_template (fun _ => Except.ok [(1 : ℝ)]) (fun p => Except.ok p)
      (SearchService.build Real.sqrt
        [⟨"What is X?", "X is Y.", [(1 : ℝ)]⟩] [[1]])
      0 0 "What is X?" false 1 0 [] 1 []
      ⟨0, "What is X?", "X is Y.", [(1 : ℝ)]⟩ _ hsearch hdoc rfl⟩

/-! ## C9 -/

theorem chunksGo_nil (bs : ℕ) : chunksGo bs [] = [] := by
  rw [chunksGo]

theorem chunksGo_cons (bs : ℕ) (x : String) (xs : List String) :
    chunksGo bs (x :: xs) =
      ((x :: xs).take (bs + 1)) :: chunksGo bs ((x :: xs).drop (bs + 1)) := by
  rw [chunksGo]

theorem encodeGo_nil (be : List String → Except String (List (List R)))
    (delay : R) (bs : ℕ) : encodeGo be delay bs [] = ([], 0) := by
  rw [encodeGo]

theorem encodeGo_cons_error (be : List String → Except String (List (List R)))
    (delay : R) (bs : ℕ) (x : String) (xs : List String) (e : String)
    (hbe : be ((x :: xs).take (bs + 1)) = .error e) :
    encodeGo be delay bs (x :: xs) =
      (((x :: xs).take (bs + 1)).map (fun _ => List.replicate 768 (0 : R)) ++
         (encodeGo be delay bs ((x :: xs).drop (bs + 1))).1,
       (encodeGo be delay bs ((x :: xs).drop (bs + 1))).2) := by
  rw [encodeGo, hbe]

theorem encodeGo_cons_ok (be : List String → Except String (List (List R)))
    (delay : R) (bs : ℕ) (x : String) (xs : List String) (vs : List (List R))
    (hbe : be ((x :: xs).take (bs + 1)) = .ok vs) :
    encodeGo be delay bs (x :: xs) =
      (vs ++ (encodeGo be delay bs ((x :: xs).drop (bs + 1))).1,
       (if ((x :: xs).drop (bs + 1)).length ≠ 0 then delay else 0) +
         (encodeGo be delay bs ((x :: xs).drop (bs + 1))).2) := by
  rw [encodeGo, hbe]

theorem batchBlock_ok (be : List String → Except String (List (List R)))
    (b : List String) (vs : List (List R)) (h : be b = .ok vs) :
    batchBlock be b = vs := by
  unfold batchBlock
  rw [h]

theorem batchBlock_error (be : List String → Except String (List (List R)))
    (b : List String) (e : String) (h : be b = .error e) :
    batchBlock be b = b.map (fun _ => List.replicate 768 (0 : R)) := by
  unfold batchBlock
  rw [h]

theorem encodeGo_spec (be : List String → Except String (List (List R)))
    (delay : R) (bs : ℕ) (l : List String) :
    (encodeGo be delay bs l).1 =
      ((chunksGo bs l).map (batchBlock be)).flatten ∧
    ((∀ b vs, be b = Except.ok vs → vs.length = b.length) →
      (encodeGo be delay bs l).1.length = l.length) ∧
    ((∀ b ∈ chunksGo bs l, ∃ vs, be b = Except.ok vs) →
      (encodeGo be delay bs l).2 =
        delay * (((chunksGo bs l).length - 1 : ℕ) : R)) := by
  suffices h : ∀ n (l : List String), l.length ≤ n →
      (encodeGo be delay bs l).1 =
        ((chunksGo bs l).map (batchBlock be)).flatten ∧
      ((∀ b vs, be b = Except.ok vs → vs.length = b.length) →
        (encodeGo be delay bs l).1.length = l.length) ∧
      ((∀ b ∈ chunksGo bs l, ∃ vs, be b = Except.ok vs) →
        (encodeGo be delay bs l).2 =
          delay * (((chunksGo bs l).length - 1 : ℕ) : R)) by
    exact h l.length l le_rfl
  intro n
  induction n with
  | zero =>
    intro l hl
    have hnil : l = [] := List.eq_nil_of_length_eq_zero (by omega)
    subst hnil
    rw [encodeGo_nil, chunksGo_nil]
    exact ⟨rfl, fun _ => rfl, fun _ => by simp⟩
  | succ n ih =>
    intro l hl
    match l with
    | [] =>
      rw [encodeGo_nil, chunksGo_nil]
      exact ⟨rfl, fun _ => rfl, fun _ => by simp⟩
    | x :: xs =>
      have hrem : ((x :: xs).drop (bs + 1)).length ≤ n := by
        simp only [List.length_cons] at hl
        simp only [List.length_drop, List.length_cons]
        omega
      obtain ⟨ih1, ih2, ih3⟩ := ih ((x :: xs).drop (bs + 1)) hrem
      rcases hbe : be ((x :: xs).take (bs + 1)) with e | vs
      · -- failed batch: one zero vector per sentence, no sleep
        rw [encodeGo_cons_error be delay bs x xs e hbe, chunksGo_cons]
        refine ⟨?_, ?_, ?_⟩
        · rw [List.map_cons, List.flatten_cons,
            batchBlock_error be _ e hbe, ih1]
        · intro hcount
          rw [List.length_append, List.length_map, ih2 hcount,
            ← List.length_append, List.take_append_drop]
        · intro hall
          rcases hall _ (List.mem_cons_self _ _) with ⟨vs, hvs⟩
          rw [hvs] at hbe
          exact absurd hbe (by simp)
      · -- successful batch
        rw [encodeGo_cons_ok be delay bs x xs vs hbe, chunksGo_cons]
        refine ⟨?_, ?_, ?_⟩
        · rw [List.map_cons, List.flatten_cons, batchBlock_ok be _ vs hbe, ih1]
        · intro hcount
          rw [List.length_append, hcount _ _ hbe, ih2 hcount,
            ← List.length_append, List.take_append_drop]
        · intro hall
          have hall' : ∀ b ∈ chunksGo bs ((x :: xs).drop (bs + 1)),
              ∃ vs, be b = Except.ok vs :=
            fun b hb => hall b (List.mem_cons_of_mem _ hb)
          rw [ih3 hall']
          rcases hdrop : (x :: xs).drop (bs + 1) with _ | ⟨y, ys⟩
          · rw [chunksGo_nil]
            simp
          · rw [chunksGo_cons]
            simp only [List.length_cons, ne_eq, Nat.succ_ne_zero,
              not_false_eq_true, if_true, Nat.add_sub_cancel]
            push_cast [Nat.succ_sub_one]
            ring

/-- C9 (amended): for every input list, the batched helper returns exactly
one embedding per input sentence in input order (given the provider's
one-vector-per-input contract): a successful batch contributes the
provider's vectors, and every sentence of a failed batch is replaced by the
768-dimensional zero vector instead of aborting the whole run.  The
rate-limiting delay is `1 / api_calls_per_second`, but it is inserted only
after a SUCCESSFUL batch that is not the last one — when every provider
call succeeds the total sleep is `delay * (batches - 1)`; a failed batch is
not followed by the delay (the exception skips the `time.sleep` call). -/
theorem c9_batched_embedding
    (be : List String → Except String (List (List ℝ)))
    (sentences : List String) (rate : ℝ) (bs : ℕ)
    (hcount : ∀ b vs, be b = Except.ok vs → vs.length = b.length) :
    ∃ out slept,
      encode_text_to_embedding_batched be sentences rate (bs + 1) =
        .ok (out, slept) ∧
      out.length = sentences.length ∧
      out = ((chunksGo bs sentences).map (batchBlock be)).flatten ∧
      ((∀ b ∈ chunksGo bs sentences, ∃ vs, be b = Except.ok vs) →
        slept = (1 / rate) * (((chunksGo bs sentences).length - 1 : ℕ) : ℝ)) := by
  obtain ⟨h1, h2, h3⟩ := encodeGo_spec be (1 / rate) bs sentences
  exact ⟨_, _, rfl, h2 hcount, h1, h3⟩

/-- C9 witness: six sentences, batch size 5, an always-succeeding provider
returning one vector per sentence. -/
theorem c9_batched_embedding_witness :
    (∀ b vs, (fun b : List String =>
        (Except.ok (b.map (fun _ => [(1 : ℝ)])) :
          Except String (List (List ℝ)))) b = Except.ok vs →
      vs.length = b.length) ∧
    (∃ out slept,
      encode_text_to_embedding_batched
        (fun b : List String => Except.ok (b.map (fun _ => [(1 : ℝ)])))
        ["a", "b", "c", "d", "e", "f"] (20 / 60) (4 + 1) =
        .ok (out, slept) ∧
      out.length = (["a", "b", "c", "d", "e", "f"] : List String).length ∧
      out = ((chunksGo 4 ["a", "b", "c", "d", "e", "f"]).map
        (batchBlock (fun b : List String =>
          Except.ok (b.map (fun _ => [(1 : ℝ)]))))).flatten ∧
      ((∀ b ∈ chunksGo 4 ["a", "b", "c", "d", "e", "f"],
          ∃ vs, (fun b : List String =>
            (Except.ok (b.map (fun _ => [(1 : ℝ)])) :
              Except String (List (List ℝ)))) b = Except.ok vs) →
        slept = (1 / ((20 : ℝ) / 60)) *
          (((chunksGo 4 ["a", "b", "c", "d", "e", "f"]).length - 1 : ℕ) : ℝ))) :=
  ⟨fun b vs h => by
      injection h with h
      rw [← h, List.length_map],
   c9_batched_embedding
     (fun b => Except.ok (b.map (fun _ => [(1 : ℝ)])))
     ["a", "b", "c", "d", "e", "f"] (20 / 60) 4
     (fun b vs h => by
       injection h with h
       rw [← h, List.length_map])⟩

/-- C9 counterexample: six sentences in two batches where the first
provider call fails: the helper sleeps 0 seconds in total although the
configured delay between consecutive batches is `1 / (20/60) = 3` seconds —
the claimed fixed delay between consecutive batches is not inserted after a
failed batch. -/
theorem c9_no_delay_after_failed_batch_cex :
    encode_text_to_embedding_batched
      (fun b : List String => if 5 ≤ b.length then Except.error "quota"
        else Except.ok (b.map (fun _ => [(1 : ℝ)])))
      ["a", "b", "c", "d", "e", "f"] (20 / 60) 5 =
      .ok ((["a", "b", "c", "d", "e"].map
        (fun _ => List.replicate 768 (0 : ℝ))) ++ [[1]], 0) ∧
    (1 / ((20 : ℝ) / 60)) = 3 ∧
    ((0 : ℝ) ≠ 3) ∧
    (chunksGo 4 ["a", "b", "c", "d", "e", "f"]).length = 2 := by
  have h1 : (fun b : List String => if 5 ≤ b.length then Except.error "quota"
      else Except.ok (b.map (fun _ => [(1 : ℝ)])))
      ["a", "b", "c", "d", "e"] = Except.error "quota" := by norm_num
  have h2 : (fun b : List String => if 5 ≤ b.length then Except.error "quota"
      else Except.ok (b.map (fun _ => [(1 : ℝ)])))
      ["f"] = Except.ok [[(1 : ℝ)]] := by norm_num
  have hstep2 : encodeGo
      (fun b : List String => if 5 ≤ b.length then Except.error "quota"
        else Except.ok (b.map (fun _ => [(1 : ℝ)])))
      (1 / (20 / 60)) 4 ["f"] = ([[(1 : ℝ)]], 0) := by
    rw [encodeGo_cons_ok _ _ 4 "f" [] [[(1 : ℝ)]] h2]
    rw [show (["f"] : List String).drop (4 + 1) = [] from rfl, encodeGo_nil]
    norm_num
  refine ⟨?_, by norm_num, by norm_num, ?_⟩
  · show Except.ok (encodeGo _ _ 4 _) = _
    rw [encodeGo_cons_error _ _ 4 "a" ["b", "c", "d", "e", "f"] "quota" h1]
    rw [show (["a", "b", "c", "d", "e", "f"] : List String).drop (4 + 1) = ["f"]
      from rfl, hstep2]
    rw [show (["a", "b", "c", "d", "e", "f"] : List String).take (4 + 1) =
      ["a", "b", "c", "d", "e"] from rfl]
  · rw [chunksGo_cons,
      show (["a", "b", "c", "d", "e", "f"] : List String).drop (4 + 1) = ["f"]
        from rfl, chunksGo_cons,
      show (["f"] : List String).drop (4 + 1) = [] from rfl, chunksGo_nil]
    rfl
